import Mathlib

/-!
Shallow embedding of `src/dynamic-react-editor.js` (shism2/dynamic-react-code-editor).

The file models the editor component's session state, its state-update helper,
the assistant-update operation, undo, the retry handler, the render pipeline,
the Babel loader, and the byte-stream decoding used when consuming the
assistant's streamed response.  External effects (the network, the Babel
compiler, sandbox execution of compiled code) are parameters: each operation
takes the outcome of its external calls as an explicit argument and returns
the resulting session state.
-/

namespace DynamicReactEditor

/-- `MAX_RETRIES` from line 45 of the source. -/
def MAX_RETRIES : Nat := 5

/-- JavaScript `String.prototype.trim()`: strips leading and trailing
whitespace characters. -/
def jsTrim (s : String) : String :=
  String.mk (((s.data.dropWhile Char.isWhitespace).reverse.dropWhile Char.isWhitespace).reverse)

/-- JavaScript `String.prototype.startsWith(p)`. -/
def jsStartsWith (s p : String) : Bool :=
  s.data.take p.data.length = p.data

/-- A value that sandboxed code can leave in `module.exports`.  The sandbox in
`renderComponent` initializes `module.exports` to a fresh empty object `\x7b\x7d`;
the executed program may overwrite it with a component value (identified here
abstractly by a name), or leave it untouched. -/
inductive ExportValue where
  | emptyObject : ExportValue
  | component (name : String) : ExportValue
deriving DecidableEq, Repr

/-- A React element descriptor, as produced by `React.createElement`. -/
structure ReactElement where
  elemType : ExportValue
  props : List (String × String)
deriving DecidableEq, Repr

/-- Models `React.createElement(type, props)`: the library constructs an
element descriptor from the given type and props without evaluating or
validating the type (an invalid type only faults later, when a renderer
mounts the element), so this function is total and never throws. -/
def createElement (t : ExportValue) (props : List (String × String)) : ReactElement :=
  ⟨t, props⟩

/-- The session state held by `MainComponent`'s `useState` (lines 51-68).
`loadingStatus` is one of the strings "idle", "loading", "ready", "error";
`error` is `none` for JavaScript `null`. -/
structure Session where
  error : Option String
  loadingStatus : String
  preview : Option ReactElement
  code : String
  streamingResponse : String
  aiPrompt : String
  isUpdating : Bool
  retryCount : Nat
  customPrompts : List String
  history : List String
deriving DecidableEq, Repr

/-- The initial state created at mount (lines 51-68): `customPrompts` is the
list parsed from the external store (or `[]` on missing/malformed data). -/
def initState (initialCode : String) (storedPrompts : List String) : Session :=
  { error := none
    loadingStatus := "idle"
    preview := none
    code := initialCode
    streamingResponse := ""
    aiPrompt := ""
    isUpdating := false
    retryCount := 0
    customPrompts := storedPrompts
    history := [] }

/-- A partial-update object, as passed to `updateState`: each field present in
the JavaScript object literal is `some`, each absent field is `none`. -/
structure Updates where
  error : Option (Option String)
  loadingStatus : Option String
  preview : Option (Option ReactElement)
  code : Option String
  streamingResponse : Option String
  aiPrompt : Option String
  isUpdating : Option Bool
  retryCount : Option Nat
  customPrompts : Option (List String)
  history : Option (List String)
deriving DecidableEq

/-- The update object with no fields present. -/
def emptyUpdates : Updates :=
  ⟨none, none, none, none, none, none, none, none, none, none⟩

/-- Spreading an update object over the previous snapshot:
`(\x7b ...prev, ...updates \x7d)` keeps each field of `prev` unless `updates`
carries that field. -/
def applyUpdates (s : Session) (u : Updates) : Session :=
  { error := u.error.getD s.error
    loadingStatus := u.loadingStatus.getD s.loadingStatus
    preview := u.preview.getD s.preview
    code := u.code.getD s.code
    streamingResponse := u.streamingResponse.getD s.streamingResponse
    aiPrompt := u.aiPrompt.getD s.aiPrompt
    isUpdating := u.isUpdating.getD s.isUpdating
    retryCount := u.retryCount.getD s.retryCount
    customPrompts := u.customPrompts.getD s.customPrompts
    history := u.history.getD s.history }

/-- An argument passed to `updateState`: call sites pass either a plain object
literal or an updater function computing an update object from the previous
snapshot. -/
inductive StateUpdate where
  | obj (u : Updates)
  | fn (f : Session → Updates)

/-- `updateState` (lines 75-77): `setState((prev) => (\x7b ...prev, ...updates \x7d))`.
When `updates` is an object its fields are spread over the previous snapshot.
When `updates` is a function value, the object spread copies the function's
own enumerable properties — a function has none — so the snapshot is returned
unchanged: the updater function is never invoked. -/
def updateState (s : Session) : StateUpdate → Session
  | .obj u => applyUpdates s u
  | .fn _ => s

/-- Outcome of the suggestion request in `updateWithAI`: either the fetch (or
the stream read) rejects with a message, or a response arrives with its `ok`
flag, numeric `status`, and `body` — the text accumulated by the
stream-consumption loop (lines 184-190). -/
inductive SuggestOutcome where
  | fault (msg : String)
  | response (ok : Bool) (status : Nat) (body : String)
deriving Repr

/-- `updateWithAI` (lines 153-224), parameterized by the syntax oracle
`jsValid` (the behavior of `new Function(code)` succeeding, used by
`isValidJavaScript`, lines 236-243) and the outcome of the network call.

Paths, in source order: blank-prompt fast fail (154-157); set
`isUpdating`/clear `error` (159); outer catch for fetch faults, non-ok
status throw (180-181) and the HTML check throw (192-197), producing
`AI update failed: ...` with `isUpdating` false (218-223); the inner
validation with its own catch producing the invalid-JavaScript error with
`loadingStatus` "error" (211-217); and the success path (206-210), which
passes an updater FUNCTION to `updateState` — see `updateState`: the
function is spread, not invoked, so the intended
`code`/`isUpdating`/`history` update is dropped. -/
def updateWithAI (jsValid : String → Bool) (s : Session) (o : SuggestOutcome) : Session :=
  if jsTrim s.aiPrompt = "" then
    updateState s (.obj { emptyUpdates with error := some (some "Please enter a prompt for the AI") })
  else
    let s1 := updateState s (.obj { emptyUpdates with isUpdating := some true, error := some none })
    match o with
    | .fault msg =>
        updateState s1 (.obj { emptyUpdates with
          error := some (some ("AI update failed: " ++ msg))
          isUpdating := some false })
    | .response ok status body =>
        if !ok then
          updateState s1 (.obj { emptyUpdates with
            error := some (some ("AI update failed: AI API responded with status " ++ toString status))
            isUpdating := some false })
        else if jsStartsWith (jsTrim body) "<" then
          updateState s1 (.obj { emptyUpdates with
            error := some (some "AI update failed: Received HTML instead of JavaScript. There may be a server issue.")
            isUpdating := some false })
        else if jsValid body then
          updateState s1 (.fn (fun prev => { emptyUpdates with
            code := some (jsTrim body)
            isUpdating := some false
            history := some (prev.history ++ [prev.code]) }))
        else
          updateState s1 (.obj { emptyUpdates with
            error := some (some "AI response contains invalid JavaScript code: Invalid JavaScript code. Try refining the prompt.")
            loadingStatus := some "error"
            isUpdating := some false })

/-- `undoLastChange` (lines 251-259): when the history is non-empty it reads
the last snapshot and passes an updater FUNCTION to `updateState` (see there:
the function is spread, not invoked). -/
def undoLastChange (s : Session) : Session :=
  if s.history.length > 0 then
    let lastCode := s.history.getD (s.history.length - 1) ""
    updateState s (.fn (fun prev => { emptyUpdates with
      code := some lastCode
      history := some prev.history.dropLast }))
  else s

/-- `saveCustomPrompt` (lines 230-234), state part only (the external
key-value write has no effect on session state). -/
def saveCustomPrompt (s : Session) : Session :=
  updateState s (.obj { emptyUpdates with customPrompts := some (s.customPrompts ++ [s.aiPrompt]) })

/-- `handleRetry` (lines 333-340).  Returns the new session state and whether
`renderComponent()` was invoked. -/
def handleRetry (s : Session) : Session × Bool :=
  if s.retryCount < MAX_RETRIES then
    (updateState s (.obj { emptyUpdates with retryCount := some (s.retryCount + 1) }), true)
  else
    (updateState s (.obj { emptyUpdates with retryCount := some 0 }), false)

/-- The render-trigger guard of the effect at lines 261-269:
`state.loadingStatus === "idle" && state.code.trim() && !state.isUpdating`
(an empty string is falsy in JavaScript). -/
def renderTrigger (s : Session) : Bool :=
  s.loadingStatus = "idle" && !(jsTrim s.code = "") && !s.isUpdating

/-- Outcome of the external Babel `transform` call in `transpileCode`. -/
inductive TranspileResult where
  | ok (compiled : String)
  | err (msg : String)
deriving DecidableEq, Repr

/-- Outcome of running the compiled text in the sandbox scope of
`renderComponent` (lines 133-139): either the execution throws, or it
completes leaving some value in `module.exports` (`emptyObject` when the
program never assigned to it). -/
inductive ExecOutcome where
  | throws (msg : String)
  | completes (exported : ExportValue)
deriving DecidableEq, Repr

/-- The external outcomes one render cycle can encounter: whether the Babel
handle is already cached (`refs.babelLoaded`/`refs.babel`), whether the
script load succeeds if one is needed, the compiler outcome, and the sandbox
outcome.  `previewProps` is the component prop of the same name. -/
structure RenderEnv where
  babelLoaded : Bool
  loadOk : Bool
  transpiled : TranspileResult
  exec : ExecOutcome
  previewProps : List (String × String)
deriving Repr

/-- One `loadBabel()` call (lines 79-103) run to completion of its promise,
as it affects session state: a cache hit returns immediately with no state
change; otherwise `loadingStatus` is set to "loading", the script is
fetched, and its onload/onerror handler runs.  Returns the state and whether
the load succeeded. -/
def loadBabelRun (s : Session) (babelLoaded loadOk : Bool) : Session × Bool :=
  if babelLoaded then (s, true)
  else
    let s1 := updateState s (.obj { emptyUpdates with loadingStatus := some "loading" })
    if loadOk then
      (updateState s1 (.obj { emptyUpdates with loadingStatus := some "idle" }), true)
    else
      (updateState s1 (.obj { emptyUpdates with
        error := some (some "Failed to load Babel")
        loadingStatus := some "error" }), false)

/-- `transpileCode` (lines 105-126) run on the current state: awaits
`loadBabel`, then calls the external compiler.  A rejected load or a
compiler exception lands in the catch block, which records
`Error during transpilation: ...` and sets `loadingStatus` to "error" and
makes the function return null (`none`). -/
def transpileRun (s : Session) (env : RenderEnv) : Session × Option String :=
  let (s1, ok) := loadBabelRun s env.babelLoaded env.loadOk
  if ok then
    match env.transpiled with
    | .ok compiled => (s1, some compiled)
    | .err msg =>
        (updateState s1 (.obj { emptyUpdates with
          error := some (some ("Error during transpilation: " ++ msg))
          loadingStatus := some "error" }), none)
  else
    (updateState s1 (.obj { emptyUpdates with
      error := some (some "Error during transpilation: Failed to load Babel")
      loadingStatus := some "error" }), none)

/-- `renderComponent` (lines 128-151): transpile, return early on null,
otherwise run the compiled text in the sandbox scope.  On completion the
value left in `module.exports` is read WITHOUT any check of what it is and
handed to `React.createElement` (which never throws — see `createElement`),
so the state becomes "ready" with that preview; only a thrown exception
reaches the catch block that records `Runtime error: ...`. -/
def renderComponentRun (s : Session) (env : RenderEnv) : Session :=
  let (s1, transpiledCode) := transpileRun s env
  match transpiledCode with
  | none => s1
  | some _ =>
      match env.exec with
      | .throws msg =>
          updateState s1 (.obj { emptyUpdates with
            error := some (some ("Runtime error: " ++ msg))
            loadingStatus := some "error" })
      | .completes exported =>
          updateState s1 (.obj { emptyUpdates with
            preview := some (some (createElement exported env.previewProps))
            loadingStatus := some "ready" })

/-- JavaScript truthiness of `state.error` (null or a string): `null` and
the empty string are falsy. -/
def jsTruthyStr : Option String → Bool
  | none => false
  | some m => !(m = "")

/-- Which panel the preview column shows. -/
inductive Panel where
  | loadingPanel
  | errorPanel
  | previewPanel
deriving DecidableEq, Repr

/-- The panel selection at lines 327-344:
`state.loadingStatus !== "ready" && state.loadingStatus !== "error"` shows
the loading content; otherwise a truthy `state.error` shows the error
content with the retry button; otherwise the preview is shown. -/
def panelFor (s : Session) : Panel :=
  if !(s.loadingStatus = "ready") && !(s.loadingStatus = "error") then .loadingPanel
  else if jsTruthyStr s.error then .errorPanel
  else .previewPanel

/-- State of the Babel loader subsystem across calls and script events:
`babelLoaded` and `babelSet` are `refs.babelLoaded.current` and whether
`refs.babel.current` is non-null; `fetchCount` counts script elements
appended to the document head (each one triggers a fetch of the compiler
resource); `loadingStatus` and `error` are the session fields the loader
touches. -/
structure LoaderState where
  babelLoaded : Bool
  babelSet : Bool
  fetchCount : Nat
  loadingStatus : String
  error : Option String
deriving DecidableEq, Repr

/-- The loader state at mount: refs null/false, nothing fetched. -/
def loaderInit : LoaderState :=
  { babelLoaded := false, babelSet := false, fetchCount := 0
    loadingStatus := "idle", error := none }

/-- Events of the loader subsystem: a `loadBabel()` invocation, or the
onload/onerror handler of a previously appended script firing. -/
inductive LoaderEvent where
  | call
  | onload
  | onerror
deriving DecidableEq, Repr

/-- One loader event (lines 79-103).  `call`: if
`refs.babelLoaded.current && refs.babel.current` the function returns a
resolved promise with no side effect; otherwise it sets `loadingStatus` to
"loading" and appends a fresh script element — there is no guard against a
fetch already being in flight.  `onload` caches the handle and sets both
flags; `onerror` records the load error. -/
def loaderStep (st : LoaderState) : LoaderEvent → LoaderState
  | .call =>
      if st.babelLoaded && st.babelSet then st
      else { st with loadingStatus := "loading", fetchCount := st.fetchCount + 1 }
  | .onload =>
      { st with babelSet := true, babelLoaded := true, loadingStatus := "idle" }
  | .onerror =>
      { st with error := some "Failed to load Babel", loadingStatus := "error" }

/-- A sequence of loader events applied in order. -/
def loaderRun (st : LoaderState) (evs : List LoaderEvent) : LoaderState :=
  evs.foldl loaderStep st

/-- The identifiers bound in scope at the expression
`useCallback(debounce((value) => ..., 300), [])` (lines 226-228): the module
imports (line 1), the module-level constants, `MainComponent`'s props and the
bindings declared before line 226 in its body, and the host-provided globals
this module refers to.  `debounce` is declared nowhere in the module and is
imported from nowhere. -/
def scopeAtDebouncedOnChange : List String :=
  [ "React", "useState", "useEffect", "useCallback", "useRef",
    "SYSTEM_PROMPT", "examples", "MAX_RETRIES", "BABEL_CDN_URL",
    "MainComponent", "LoadingContent", "ErrorContent", "StoryComponent",
    "initialCode", "previewProps", "noInlineStyles",
    "state", "setState", "refs", "updateState", "loadBabel",
    "transpileCode", "renderComponent", "updateWithAI",
    "window", "document", "fetch", "localStorage", "TextDecoder",
    "JSON", "Function", "Promise", "Error", "JSON", "process", "module" ]

/-- The free identifiers of the expression at lines 226-228 that must
resolve in the enclosing scope when the component body evaluates it. -/
def debouncedOnChangeFreeIdents : List String :=
  ["useCallback", "debounce", "updateState"]

/-- An expression evaluates without a ReferenceError exactly when each of
its free identifiers is bound in scope. -/
def referencesOnlyBoundNames (free scope : List String) : Bool :=
  free.all (fun n => scope.contains n)

/-- Whether a byte is a UTF-8 continuation byte (0x80-0xBF). -/
def isCont (c : Nat) : Bool :=
  0x80 ≤ c && c < 0xC0

/-- Range check for the first continuation byte of a three-byte sequence
(WHATWG: lead 0xE0 restricts it to 0xA0-0xBF, lead 0xED to 0x80-0x9F). -/
def cont3Ok (lead c : Nat) : Bool :=
  if lead = 0xE0 then 0xA0 ≤ c && c < 0xC0
  else if lead = 0xED then 0x80 ≤ c && c < 0xA0
  else isCont c

/-- Range check for the first continuation byte of a four-byte sequence
(WHATWG: lead 0xF0 restricts it to 0x90-0xBF, lead 0xF4 to 0x80-0x8F). -/
def cont4Ok (lead c : Nat) : Bool :=
  if lead = 0xF0 then 0x90 ≤ c && c < 0xC0
  else if lead = 0xF4 then 0x80 ≤ c && c < 0x90
  else isCont c

/-- UTF-8 decoding with replacement, as performed by
`new TextDecoder().decode(bytes)` (non-fatal mode of the WHATWG encoding
standard): bytes in, Unicode code points out, each malformed or truncated
sequence yielding U+FFFD and resuming at the first unconsumed byte. -/
def decodeUtf8 : List Nat → List Nat
  | [] => []
  | b :: t =>
    if b < 0x80 then b :: decodeUtf8 t
    else if b < 0xC2 then 0xFFFD :: decodeUtf8 t
    else if b ≤ 0xDF then
      match t with
      | [] => [0xFFFD]
      | c1 :: t1 =>
          if isCont c1 then ((b - 0xC0) * 64 + (c1 - 0x80)) :: decodeUtf8 t1
          else 0xFFFD :: decodeUtf8 (c1 :: t1)
    else if b ≤ 0xEF then
      match t with
      | [] => [0xFFFD]
      | c1 :: t1 =>
          if cont3Ok b c1 then
            match t1 with
            | [] => [0xFFFD]
            | c2 :: t2 =>
                if isCont c2 then
                  ((b - 0xE0) * 4096 + (c1 - 0x80) * 64 + (c2 - 0x80)) :: decodeUtf8 t2
                else 0xFFFD :: decodeUtf8 (c2 :: t2)
          else 0xFFFD :: decodeUtf8 (c1 :: t1)
    else if b ≤ 0xF4 then
      match t with
      | [] => [0xFFFD]
      | c1 :: t1 =>
          if cont4Ok b c1 then
            match t1 with
            | [] => [0xFFFD]
            | c2 :: t2 =>
                if isCont c2 then
                  match t2 with
                  | [] => [0xFFFD]
                  | c3 :: t3 =>
                      if isCont c3 then
                        ((b - 0xF0) * 262144 + (c1 - 0x80) * 4096
                          + (c2 - 0x80) * 64 + (c3 - 0x80)) :: decodeUtf8 t3
                      else 0xFFFD :: decodeUtf8 (c3 :: t3)
                else 0xFFFD :: decodeUtf8 (c2 :: t2)
          else 0xFFFD :: decodeUtf8 (c1 :: t1)
    else 0xFFFD :: decodeUtf8 t

/-- The accumulation loop at lines 184-190:
`aiResponse += new TextDecoder().decode(value)` decodes each received chunk
with a FRESH decoder and concatenates the resulting texts. -/
def decodeChunks (chunks : List (List Nat)) : List Nat :=
  (chunks.map decodeUtf8).foldl (· ++ ·) []

/-- One observable session-state transition of the component: an assistant
update with some network outcome, an undo, a retry click, a direct edit of
the textarea (line 312), a debounced prompt commit (line 227), a prompt
save, or a render cycle with some environment outcome. -/
inductive Step : Session → Session → Prop where
  | ai (jsValid : String → Bool) (s : Session) (o : SuggestOutcome) :
      Step s (updateWithAI jsValid s o)
  | undo (s : Session) : Step s (undoLastChange s)
  | retry (s : Session) : Step s (handleRetry s).1
  | edit (s : Session) (t : String) :
      Step s (updateState s (.obj { emptyUpdates with code := some t }))
  | prompt (s : Session) (v : String) :
      Step s (updateState s (.obj { emptyUpdates with aiPrompt := some v }))
  | save (s : Session) : Step s (saveCustomPrompt s)
  | render (s : Session) (env : RenderEnv) : Step s (renderComponentRun s env)

/-- Session states reachable from a given state by the component's
transitions. -/
inductive Reachable (s0 : Session) : Session → Prop where
  | refl : Reachable s0 s0
  | step {s t : Session} : Reachable s0 s → Step s t → Reachable s0 t

/-- A concrete session used to evaluate the operations at explicit inputs. -/
def sampleSession : Session :=
  { error := none
    loadingStatus := "ready"
    preview := none
    code := "const A = 1"
    streamingResponse := ""
    aiPrompt := "add a button"
    isUpdating := false
    retryCount := 0
    customPrompts := []
    history := [] }

/-- A render environment in which the loader hits its cache, the compiler
succeeds, and the compiled text completes without assigning to
`module.exports`. -/
def envNoExport : RenderEnv :=
  { babelLoaded := true
    loadOk := true
    transpiled := .ok "compiled output"
    exec := .completes .emptyObject
    previewProps := [] }

/-- A render environment for a fully successful cycle producing a component. -/
def envSuccess : RenderEnv :=
  { babelLoaded := true
    loadOk := true
    transpiled := .ok "compiled output"
    exec := .completes (.component "SimpleComponent")
    previewProps := [("title", "demo")] }

/- Helper lemmas -/

theorem applyUpdates_retryCount (s : Session) (u : Updates) (h : u.retryCount = none) :
    (applyUpdates s u).retryCount = s.retryCount := by
  simp [applyUpdates, h]

theorem updateWithAI_retryCount (j : String → Bool) (s : Session) (o : SuggestOutcome) :
    (updateWithAI j s o).retryCount = s.retryCount := by
  unfold updateWithAI
  split
  · simp [updateState, applyUpdates, emptyUpdates]
  · cases o with
    | fault msg => simp [updateState, applyUpdates, emptyUpdates]
    | response ok status body =>
        by_cases h1 : (!ok) = true <;>
          by_cases h2 : jsStartsWith (jsTrim body) "<" = true <;>
            by_cases h3 : j body = true <;>
              simp [h1, h2, h3, updateState, applyUpdates, emptyUpdates]

theorem undoLastChange_retryCount (s : Session) :
    (undoLastChange s).retryCount = s.retryCount := by
  unfold undoLastChange
  split <;> simp [updateState]

theorem saveCustomPrompt_retryCount (s : Session) :
    (saveCustomPrompt s).retryCount = s.retryCount := by
  simp [saveCustomPrompt, updateState, applyUpdates, emptyUpdates]

theorem handleRetry_fst_le (s : Session) :
    (handleRetry s).1.retryCount ≤ MAX_RETRIES := by
  unfold handleRetry
  split <;> rename_i h <;> simp [updateState, applyUpdates, emptyUpdates]
  · omega

theorem loadBabelRun_retryCount (s : Session) (bl ok : Bool) :
    (loadBabelRun s bl ok).1.retryCount = s.retryCount := by
  unfold loadBabelRun
  split
  · rfl
  · split <;> simp [updateState, applyUpdates, emptyUpdates]

theorem transpileRun_retryCount (s : Session) (env : RenderEnv) :
    (transpileRun s env).1.retryCount = s.retryCount := by
  have h1 := loadBabelRun_retryCount s env.babelLoaded env.loadOk
  rcases hlb : loadBabelRun s env.babelLoaded env.loadOk with ⟨s1, lok⟩
  rw [hlb] at h1
  unfold transpileRun
  rw [hlb]
  cases lok <;> cases henv : env.transpiled <;>
    simp_all [updateState, applyUpdates, emptyUpdates]

theorem renderComponentRun_retryCount (s : Session) (env : RenderEnv) :
    (renderComponentRun s env).retryCount = s.retryCount := by
  have h1 := transpileRun_retryCount s env
  rcases htr : transpileRun s env with ⟨s1, tc⟩
  rw [htr] at h1
  unfold renderComponentRun
  rw [htr]
  cases tc <;> cases henv : env.exec <;>
    simp_all [updateState, applyUpdates, emptyUpdates]

theorem step_retryCount_le {s t : Session} (hst : Step s t)
    (h : s.retryCount ≤ MAX_RETRIES) : t.retryCount ≤ MAX_RETRIES := by
  cases hst with
  | ai j s o => rw [updateWithAI_retryCount]; exact h
  | undo s => rw [undoLastChange_retryCount]; exact h
  | retry s => exact handleRetry_fst_le s
  | edit s v => simpa [updateState, applyUpdates, emptyUpdates] using h
  | prompt s v => simpa [updateState, applyUpdates, emptyUpdates] using h
  | save s => rw [saveCustomPrompt_retryCount]; exact h
  | render s env => rw [renderComponentRun_retryCount]; exact h

theorem reachable_retryCount_le (c : String) (ps : List String) (s : Session)
    (h : Reachable (initState c ps) s) : s.retryCount ≤ MAX_RETRIES := by
  induction h with
  | refl => simp [initState, MAX_RETRIES]
  | step _ hs ih => exact step_retryCount_le hs ih

theorem renderRun_completes (s : Session) (env : RenderEnv) (compiled : String)
    (v : ExportValue)
    (hload : env.babelLoaded = true ∨ env.loadOk = true)
    (htr : env.transpiled = .ok compiled)
    (hex : env.exec = .completes v) :
    renderComponentRun s env
      = applyUpdates (if env.babelLoaded then s
          else applyUpdates s { emptyUpdates with loadingStatus := some "idle" })
        { emptyUpdates with
            preview := some (some (createElement v env.previewProps))
            loadingStatus := some "ready" } := by
  cases hbl : env.babelLoaded with
  | true =>
      unfold renderComponentRun transpileRun loadBabelRun
      simp [hbl, htr, hex, updateState]
  | false =>
      have hok : env.loadOk = true := by
        rcases hload with h | h
        · rw [hbl] at h; exact absurd h (by simp)
        · exact h
      unfold renderComponentRun transpileRun loadBabelRun
      simp [hbl, hok, htr, hex, updateState, applyUpdates, emptyUpdates]

/- Claim theorems -/

/-- C1.  The claim states that a successful instruction submission pushes the
pre-submission sourceCode onto `history`, replaces sourceCode with the
trimmed returned text, and clears `isUpdating`.  Evaluating `updateWithAI`
at a concrete successful submission (ok response, non-markup, syntactically
valid body) shows the code does none of this: the success handler passes an
updater function to `updateState`, which spreads the function instead of
invoking it, so `code` and `history` are unchanged and `isUpdating` stays
true. -/
theorem c1_success_update_dropped :
    (updateWithAI (fun _ => true) sampleSession
        (.response true 200 "const A = 2")).code = sampleSession.code
    ∧ (updateWithAI (fun _ => true) sampleSession
        (.response true 200 "const A = 2")).history = sampleSession.history
    ∧ (updateWithAI (fun _ => true) sampleSession
        (.response true 200 "const A = 2")).isUpdating = true
    ∧ sampleSession.code = "const A = 1"
    ∧ sampleSession.history = [] := by decide

/-- C2.  The claim states that undo after a successful submission restores
the pre-submission sourceCode and stack length, and that undo on an empty
stack is a no-op.  On the code, `undoLastChange` with a NON-empty history
passes an updater function to `updateState`, which drops it, so undo never
pops the stack or restores anything: evaluated at a session with
history `["old code"]`, undo leaves the whole state unchanged (and the
empty-history branch is a no-op as well). -/
theorem c2_undo_does_not_pop :
    undoLastChange { sampleSession with history := ["old code"] }
        = { sampleSession with history := ["old code"] }
    ∧ undoLastChange sampleSession = sampleSession := by decide

/-- C3 counterexample.  The claim states that compiled code which completes
without assigning a component to `module.exports` must yield a runtime
error status.  Evaluating a render cycle whose sandbox execution completes
with the untouched empty export object: the status becomes "ready" and the
preview is an element wrapping the empty object — not an error. -/
theorem c3_missing_export_yields_ready :
    (renderComponentRun (initState "const A = 1" []) envNoExport).loadingStatus = "ready"
    ∧ (renderComponentRun (initState "const A = 1" []) envNoExport).preview
        = some (createElement .emptyObject [])
    ∧ (renderComponentRun (initState "const A = 1" []) envNoExport).error = none := by decide

/-- C3 amended.  `renderComponent` performs no export-convention check: for
every session and render environment in which the load and compile steps
succeed and the sandboxed execution completes without throwing — in
particular when it never assigned to `module.exports`, leaving the empty
export object — the cycle sets status "ready" and a preview instantiating
that export object, and leaves `error` unchanged. -/
theorem c3_execute_no_export_check (s : Session) (env : RenderEnv) (compiled : String)
    (hload : env.babelLoaded = true ∨ env.loadOk = true)
    (htr : env.transpiled = .ok compiled)
    (hex : env.exec = .completes .emptyObject) :
    (renderComponentRun s env).loadingStatus = "ready"
    ∧ (renderComponentRun s env).preview
        = some (createElement .emptyObject env.previewProps)
    ∧ (renderComponentRun s env).error = s.error := by
  rw [renderRun_completes s env compiled .emptyObject hload htr hex]
  cases hbl : env.babelLoaded <;>
    simp [hbl, applyUpdates, emptyUpdates]

/-- C3 witness: the amended theorem applied at a concrete session and
environment. -/
theorem c3_execute_no_export_check_witness :
    (renderComponentRun sampleSession envNoExport).loadingStatus = "ready"
    ∧ (renderComponentRun sampleSession envNoExport).preview
        = some (createElement .emptyObject envNoExport.previewProps)
    ∧ (renderComponentRun sampleSession envNoExport).error = sampleSession.error :=
  c3_execute_no_export_check sampleSession envNoExport "compiled output"
    (Or.inl rfl) rfl rfl

/-- C4 counterexample.  The claim states that EVERY failed submission sets
status to "error".  Evaluating a transport fault against a session whose
status is "ready": the outer catch records the message and clears
`isUpdating` but never touches `loadingStatus`, which stays "ready". -/
theorem c4_transport_failure_keeps_status :
    (updateWithAI (fun _ => true) sampleSession (.fault "network down")).loadingStatus
        = "ready"
    ∧ (updateWithAI (fun _ => true) sampleSession (.fault "network down")).error
        = some "AI update failed: network down"
    ∧ (updateWithAI (fun _ => true) sampleSession (.fault "network down")).isUpdating
        = false := by decide

/-- C4 amended.  For every failed submission (transport fault, non-ok
status, markup-looking body, or syntactically invalid body) the failure
message is recorded in `error`, `isUpdating` is cleared, and `code` and
`history` are unchanged; but `loadingStatus` is set to "error" only in the
invalid-JavaScript case — the other three failure kinds leave it
unchanged. -/
theorem c4_failure_paths (jsValid : String → Bool) (s : Session)
    (h : ¬(jsTrim s.aiPrompt = "")) :
    (∀ msg : String,
        (updateWithAI jsValid s (.fault msg)).code = s.code
        ∧ (updateWithAI jsValid s (.fault msg)).history = s.history
        ∧ (updateWithAI jsValid s (.fault msg)).isUpdating = false
        ∧ (updateWithAI jsValid s (.fault msg)).error
            = some ("AI update failed: " ++ msg)
        ∧ (updateWithAI jsValid s (.fault msg)).loadingStatus = s.loadingStatus)
    ∧ (∀ (st : Nat) (body : String),
        (updateWithAI jsValid s (.response false st body)).code = s.code
        ∧ (updateWithAI jsValid s (.response false st body)).history = s.history
        ∧ (updateWithAI jsValid s (.response false st body)).isUpdating = false
        ∧ (updateWithAI jsValid s (.response false st body)).error
            = some ("AI update failed: AI API responded with status " ++ toString st)
        ∧ (updateWithAI jsValid s (.response false st body)).loadingStatus
            = s.loadingStatus)
    ∧ (∀ (st : Nat) (body : String), jsStartsWith (jsTrim body) "<" = true →
        (updateWithAI jsValid s (.response true st body)).code = s.code
        ∧ (updateWithAI jsValid s (.response true st body)).history = s.history
        ∧ (updateWithAI jsValid s (.response true st body)).isUpdating = false
        ∧ (updateWithAI jsValid s (.response true st body)).error
            = some "AI update failed: Received HTML instead of JavaScript. There may be a server issue."
        ∧ (updateWithAI jsValid s (.response true st body)).loadingStatus
            = s.loadingStatus)
    ∧ (∀ (st : Nat) (body : String), jsStartsWith (jsTrim body) "<" = false →
        jsValid body = false →
        (updateWithAI jsValid s (.response true st body)).code = s.code
        ∧ (updateWithAI jsValid s (.response true st body)).history = s.history
        ∧ (updateWithAI jsValid s (.response true st body)).isUpdating = false
        ∧ (updateWithAI jsValid s (.response true st body)).error
            = some "AI response contains invalid JavaScript code: Invalid JavaScript code. Try refining the prompt."
        ∧ (updateWithAI jsValid s (.response true st body)).loadingStatus = "error") := by
  refine ⟨fun msg => ?_, fun st body => ?_, fun st body hm => ?_, fun st body hm hv => ?_⟩
  · simp [updateWithAI, h, updateState, applyUpdates, emptyUpdates]
  · simp [updateWithAI, h, updateState, applyUpdates, emptyUpdates]
  · simp [updateWithAI, h, hm, updateState, applyUpdates, emptyUpdates]
  · simp [updateWithAI, h, hm, hv, updateState, applyUpdates, emptyUpdates]

/-- C4 witness: the amended theorem applied at a concrete session and at
concrete failing outcomes of each kind. -/
theorem c4_failure_paths_witness :
    ¬(jsTrim sampleSession.aiPrompt = "")
    ∧ (updateWithAI (fun _ => false) sampleSession (.fault "socket hang up")).error
        = some "AI update failed: socket hang up"
    ∧ (updateWithAI (fun _ => false) sampleSession (.response false 500 "")).error
        = some "AI update failed: AI API responded with status 500"
    ∧ (updateWithAI (fun _ => false) sampleSession
        (.response true 200 "<html>Error 502</html>")).loadingStatus
        = sampleSession.loadingStatus
    ∧ (updateWithAI (fun _ => false) sampleSession
        (.response true 200 "function ( ")).loadingStatus = "error" := by
  have h : ¬(jsTrim sampleSession.aiPrompt = "") := by decide
  have hc := c4_failure_paths (fun _ => false) sampleSession h
  exact ⟨h, (hc.1 "socket hang up").2.2.2.1,
    (hc.2.1 500 "").2.2.2.1,
    (hc.2.2.1 200 "<html>Error 502</html>" (by decide)).2.2.2.2,
    (hc.2.2.2 200 "function ( " (by decide) rfl).2.2.2.2⟩

/-- C5 counterexample.  The claim states that a second `loadBabel()` call
issued while the first fetch is still pending must not trigger a second
fetch.  Evaluating two calls with no completion event in between: each call
appends a fresh script element, so two fetches of the compiler resource are
issued. -/
theorem c5_pending_call_second_fetch :
    (loaderRun loaderInit [.call, .call]).fetchCount = 2
    ∧ ¬((loaderRun loaderInit [.call, .call]).fetchCount ≤ 1) := by decide

/-- C5 amended.  Once a load has succeeded (the handle is cached and the
loaded flag set), every further `loadBabel()` call returns immediately with
no state change; but a call made while the cache is still empty — including
one made while a previous fetch is in flight — always appends another
script element, issuing another fetch. -/
theorem c5_loader_single_load (st : LoaderState) :
    (st.babelLoaded = true → st.babelSet = true → loaderStep st .call = st)
    ∧ ((st.babelLoaded && st.babelSet) = false →
        (loaderStep st .call).fetchCount = st.fetchCount + 1
        ∧ (loaderStep st .call).loadingStatus = "loading") := by
  constructor
  · intro h1 h2
    simp [loaderStep, h1, h2]
  · intro h
    simp [loaderStep, h]

/-- C5 witness: the amended theorem applied at a loaded state and at the
initial state. -/
theorem c5_loader_single_load_witness :
    loaderStep { loaderInit with babelLoaded := true, babelSet := true } .call
        = { loaderInit with babelLoaded := true, babelSet := true }
    ∧ (loaderStep loaderInit .call).fetchCount = loaderInit.fetchCount + 1 :=
  ⟨(c5_loader_single_load _).1 rfl rfl,
    ((c5_loader_single_load loaderInit).2 (by decide)).1⟩

/-- C6 counterexample.  The claim states that changing sourceCode to a
non-blank value while status is "ready" or "error" (with no update in
flight) triggers a new render cycle.  Evaluating the effect guard at a
session with status "ready", non-blank code and `isUpdating` false: the
guard requires status "idle", so no render is invoked. -/
theorem c6_ready_code_change_no_render :
    renderTrigger { sampleSession with code := "const B = 2" } = false
    ∧ ({ sampleSession with code := "const B = 2" } : Session).loadingStatus = "ready"
    ∧ jsTrim ({ sampleSession with code := "const B = 2" } : Session).code ≠ ""
    ∧ ({ sampleSession with code := "const B = 2" } : Session).isUpdating = false := by
  decide

/-- C6 amended.  The effect at lines 261-269 invokes a render cycle exactly
when `loadingStatus` is "idle", the trimmed sourceCode is non-empty, and no
assistant update is in flight; in particular a sourceCode change while the
status is "ready" or "error" does not re-trigger rendering. -/
theorem c6_render_trigger_iff (s : Session) :
    renderTrigger s = true
      ↔ (s.loadingStatus = "idle" ∧ jsTrim s.code ≠ "" ∧ s.isUpdating = false) := by
  simp [renderTrigger, and_assoc]

/-- C7.  In every session state reachable from the initial state,
`retryCount` is at most `MAX_RETRIES` (5); a retry click with
`retryCount` below the ceiling increments it by exactly one and invokes the
render cycle; a retry click at the ceiling (the sixth within one error
episode that started at zero) resets the counter to 0, invokes no render,
and leaves `loadingStatus`, `error` and `preview` unchanged — so a status
of "error" stays "error". -/
theorem c7_retry_ceiling :
    (∀ (c : String) (ps : List String) (s : Session),
        Reachable (initState c ps) s → s.retryCount ≤ MAX_RETRIES)
    ∧ (∀ s : Session, s.retryCount < MAX_RETRIES →
        (handleRetry s).1.retryCount = s.retryCount + 1
        ∧ (handleRetry s).2 = true
        ∧ (handleRetry s).1.loadingStatus = s.loadingStatus)
    ∧ (∀ s : Session, s.retryCount = MAX_RETRIES →
        (handleRetry s).1.retryCount = 0
        ∧ (handleRetry s).2 = false
        ∧ (handleRetry s).1.loadingStatus = s.loadingStatus
        ∧ (handleRetry s).1.error = s.error
        ∧ (handleRetry s).1.preview = s.preview) := by
  refine ⟨reachable_retryCount_le, fun s h => ?_, fun s h => ?_⟩
  · simp [handleRetry, h, updateState, applyUpdates, emptyUpdates]
  · simp [handleRetry, h, updateState, applyUpdates, emptyUpdates]

/-- C7 witness: the ceiling theorem applied at the initial state, at a
below-ceiling retry, and at an at-ceiling retry. -/
theorem c7_retry_ceiling_witness :
    (initState "const A = 1" []).retryCount ≤ MAX_RETRIES
    ∧ (handleRetry sampleSession).1.retryCount = sampleSession.retryCount + 1
    ∧ (handleRetry { sampleSession with retryCount := 5 }).1.retryCount = 0
    ∧ (handleRetry { sampleSession with retryCount := 5 }).2 = false :=
  ⟨c7_retry_ceiling.1 "const A = 1" [] _ Reachable.refl,
    (c7_retry_ceiling.2.1 sampleSession (by decide)).1,
    (c7_retry_ceiling.2.2 { sampleSession with retryCount := 5 } rfl).1,
    (c7_retry_ceiling.2.2 { sampleSession with retryCount := 5 } rfl).2.1⟩

/-- C8.  The claim states the instruction-input change handler is a
well-defined, fault-free operation referencing only bound names.  The
expression creating it (lines 226-228) has free identifiers `useCallback`,
`debounce` and `updateState`; `debounce` is neither declared in the module
nor imported nor a host global, so it is not bound in the enclosing scope
and evaluating the component body throws a ReferenceError instead of
installing a 300-time-unit debounced handler. -/
theorem c8_debounce_unbound :
    referencesOnlyBoundNames debouncedOnChangeFreeIdents scopeAtDebouncedOnChange = false
    ∧ "debounce" ∈ debouncedOnChangeFreeIdents
    ∧ "debounce" ∉ scopeAtDebouncedOnChange
    ∧ "useCallback" ∈ scopeAtDebouncedOnChange
    ∧ "updateState" ∈ scopeAtDebouncedOnChange := by decide

/-- C9.  A successful render cycle (load and compile succeed, sandbox
execution completes) changes only the `preview` and `loadingStatus` fields:
`code`, `error`, `streamingResponse`, `aiPrompt`, `isUpdating`,
`retryCount`, `customPrompts` and `history` are all unchanged.  In
particular `error` is never cleared, so when a prior failed render left a
(truthy) message there, the panel selection after the successful render
still picks the error panel. -/
theorem c9_success_render_frame (s : Session) (env : RenderEnv) (compiled : String)
    (v : ExportValue)
    (hload : env.babelLoaded = true ∨ env.loadOk = true)
    (htr : env.transpiled = .ok compiled)
    (hex : env.exec = .completes v) :
    (renderComponentRun s env).code = s.code
    ∧ (renderComponentRun s env).error = s.error
    ∧ (renderComponentRun s env).streamingResponse = s.streamingResponse
    ∧ (renderComponentRun s env).aiPrompt = s.aiPrompt
    ∧ (renderComponentRun s env).isUpdating = s.isUpdating
    ∧ (renderComponentRun s env).retryCount = s.retryCount
    ∧ (renderComponentRun s env).customPrompts = s.customPrompts
    ∧ (renderComponentRun s env).history = s.history
    ∧ (renderComponentRun s env).loadingStatus = "ready"
    ∧ (renderComponentRun s env).preview = some (createElement v env.previewProps)
    ∧ (jsTruthyStr s.error = true → panelFor (renderComponentRun s env) = .errorPanel) := by
  rw [renderRun_completes s env compiled v hload htr hex]
  cases hbl : env.babelLoaded <;>
    simp [hbl, applyUpdates, emptyUpdates, panelFor, jsTruthyStr, createElement]

/-- C9 witness: a successful render over a session carrying a stale error
message keeps every other field, ends "ready", and still selects the error
panel. -/
theorem c9_success_render_frame_witness :
    (renderComponentRun { sampleSession with error := some "Runtime error: boom" }
        envSuccess).error = some "Runtime error: boom"
    ∧ (renderComponentRun { sampleSession with error := some "Runtime error: boom" }
        envSuccess).loadingStatus = "ready"
    ∧ panelFor (renderComponentRun { sampleSession with error := some "Runtime error: boom" }
        envSuccess) = .errorPanel := by
  have hc := c9_success_render_frame
    { sampleSession with error := some "Runtime error: boom" } envSuccess
    "compiled output" (.component "SimpleComponent") (Or.inl rfl) rfl rfl
  exact ⟨hc.2.1.trans rfl, hc.2.2.2.2.2.2.2.2.1, hc.2.2.2.2.2.2.2.2.2.2 (by decide)⟩

/-- C10.  The claim states the accumulated response text is independent of
how the byte stream is chunked.  The loop decodes every chunk with a fresh
`TextDecoder`, so a two-byte UTF-8 character (U+00E9) split across two
chunks decodes to two U+FFFD replacement characters, while decoding the
concatenated bytes yields the character: the two results differ. -/
theorem c10_chunk_split_changes_text :
    decodeChunks [[0xC3], [0xA9]] = [0xFFFD, 0xFFFD]
    ∧ decodeUtf8 ([0xC3] ++ [0xA9]) = [0xE9]
    ∧ decodeChunks [[0xC3], [0xA9]] ≠ decodeUtf8 ([0xC3] ++ [0xA9]) := by decide

end DynamicReactEditor
